import Mathlib

/-!
Shallow embedding of the certificate-expiration-monitoring program
(src/main.go and src/unnamed/part_002): the per-endpoint TLS certificate
probe GetDaysRemaining, the per-endpoint fan-out of the handler, the
port-defaulting of the configured endpoint list, and the error handling
of publishMetricData. Network and clock behaviour is passed in explicitly
as oracles so that every function is pure and executable.
-/

/-- A peer certificate as the program reads it: only the expiry instant
NotAfter matters, modelled in nanoseconds since the epoch (Go time.Time
has nanosecond resolution). -/
structure Cert where
  NotAfter : Int
deriving DecidableEq

/-- Outcome the network returns to one tls.DialWithDialer call: either the
dial or handshake fails with an underlying error message, or the handshake
succeeds and the peer presents a (possibly empty) certificate chain. -/
inductive DialOutcome where
  | dialErr (msg : String)
  | ok (peerCertificates : List Cert)
deriving DecidableEq

/-- The error values the program constructs with fmt.Errorf, one
constructor per format string in the source: invalid endpoint format,
failed to connect (wrapping the dial error), no certificate found,
timeout while processing the endpoint, failed to post metric data, and
the positive FailedMetricsCount case of publishMetricData. -/
inductive GoError where
  | invalidFormat
  | connectionFailed (endpoint msg : String)
  | noCertificate (endpoint : String)
  | timeout (endpoint : String)
  | postFailed (msg : String)
  | postRejected (count : Int)
deriving DecidableEq

/-- Result (src/unnamed/part_002 lines 23-27): the outcome of a TLS
certificate analysis for one endpoint. Go zero values: DaysRemaining is 0
and Err is none unless a field is set explicitly. -/
structure Result where
  Endpoint : String
  DaysRemaining : Int
  Err : Option GoError
deriving DecidableEq

/-- strings.Split on the single-character separator ":" — splits a
character list at every colon, mirroring the Go semantics (n colons give
n+1 parts, an empty input gives one empty part). -/
def splitOnColon : List Char → List (List Char)
  | [] => [[]]
  | ':' :: rest => [] :: splitOnColon rest
  | c :: rest =>
    match splitOnColon rest with
    | [] => [[c]]
    | p :: ps => (c :: p) :: ps

/-- len(strings.Split(endpoint, ":")) — the part count the format check of
GetDaysRemaining compares against 2. -/
def splitParts (endpoint : String) : Nat :=
  (splitOnColon endpoint.toList).length

/-- Modelled from the spec wording of the InvalidFormat contract: the
endpoint string parses into exactly a host and a numeric port. Used only
to compare the spec predicate with the check the code performs. -/
def hostNumericPort (endpoint : String) : Bool :=
  match splitOnColon endpoint.toList with
  | [host, port] => !host.isEmpty && !port.isEmpty && port.all Char.isDigit
  | _ => false

/-- Nanoseconds in one day; Go time.Duration counts int64 nanoseconds and
Hours()/24 divides by this. -/
def nsPerDay : Int := 86400000000000

/-- int(time.Until(cert.NotAfter).Hours() / 24): time.Until is
NotAfter - now as a nanosecond duration, and the Go conversion int(...)
truncates the quotient toward zero, which on the exact rational quotient
is Int.tdiv by the nanoseconds of one day. -/
def daysRemaining (now notAfter : Int) : Int :=
  Int.tdiv (notAfter - now) nsPerDay

/-- Modelled from the spec wording: daysRemaining =
floor(hours_until(certificate.notAfter) / 24), i.e. the floor division of
the remaining duration by one day. Used only to compare the spec formula
with the conversion the code performs. -/
def daysRemainingFloorSpec (now notAfter : Int) : Int :=
  Int.fdiv (notAfter - now) nsPerDay

/-- One run of the goroutine body of GetDaysRemaining (src/unnamed/part_002
lines 36-63): the format check, at most one tls.DialWithDialer call, the
empty-chain check, and the expiry computation on the first certificate of
the chain. The oracle net gives the outcome the network would return to
the n-th dial (the code performs at most one), and now is the wall clock
at the daysRemaining computation. The second component counts the dial
calls actually performed. -/
def probeBody (net : Nat → DialOutcome) (now : Int) (endpoint : String) :
    Result × Nat :=
  if splitParts endpoint ≠ 2 then
    (⟨endpoint, 0, some GoError.invalidFormat⟩, 0)
  else
    match net 0 with
    | DialOutcome.dialErr msg =>
        (⟨endpoint, 0, some (GoError.connectionFailed endpoint msg)⟩, 1)
    | DialOutcome.ok peerCertificates =>
        match peerCertificates with
        | [] => (⟨endpoint, 0, some (GoError.noCertificate endpoint)⟩, 1)
        | cert :: _ =>
            (⟨endpoint, daysRemaining now cert.NotAfter, none⟩, 1)

/-- GetDaysRemaining (src/unnamed/part_002 lines 32-74): runs probeBody in
a goroutine and selects between ctx.Done() and the result channel.
The flag ctxDoneFirst records which select arm fires: when the context
deadline fires before the probe resolves, the function returns the
timeout Result for the endpoint without waiting on the probe. -/
def GetDaysRemaining (ctxDoneFirst : Bool) (net : Nat → DialOutcome)
    (now : Int) (endpoint : String) : Result :=
  if ctxDoneFirst then
    ⟨endpoint, 0, some (GoError.timeout endpoint)⟩
  else
    (probeBody net now endpoint).1

/-- The port-defaulting step the handler applies to each configured
endpoint before probing (src/main.go lines 152-156, src/unnamed/part_002
lines 186-188): if the string contains no colon, ":443" is appended,
otherwise it is left unchanged. -/
def ensureDefaultPort (endpoint : String) : String :=
  if endpoint.toList.contains ':' then endpoint
  else endpoint ++ ":443"

/-- The per-endpoint fan-out of the handler (src/unnamed/part_002 lines
185-208, src/main.go lines 162-192): one goroutine per endpoint of the
list, each sending exactly one probe result to the results channel, and
the channel is closed only after all goroutines finish. The function
gives the per-goroutine results in input order; the channel delivers them
in some permutation of this list. -/
def schedulerResults (probe : String → Result) (endpoints : List String) :
    List Result :=
  endpoints.map probe

/-- The fields of the PostMetricData response that publishMetricData
inspects: FailedMetricsCount is a *int, none when the pointer is nil. -/
structure PostMetricDataResponse where
  FailedMetricsCount : Option Int
deriving DecidableEq

/-- publishMetricData after the PostMetricData call (src/main.go lines
116-125): post is the outcome of client.PostMetricData — either the
request itself fails, or a response arrives whose FailedMetricsCount is
checked for a positive value. The function returns the error value
publishMetricData returns, none on success. -/
def publishMetricData (post : Except String PostMetricDataResponse) :
    Option GoError :=
  match post with
  | Except.error msg => some (GoError.postFailed msg)
  | Except.ok response =>
    match response.FailedMetricsCount with
    | some count => if count > 0 then some (GoError.postRejected count) else none
    | none => none

/-- Helper: every branch of the probe body labels its Result with the
endpoint it was called on. -/
theorem probeBody_Endpoint (net : Nat → DialOutcome) (now : Int)
    (endpoint : String) :
    ((probeBody net now endpoint).1).Endpoint = endpoint := by
  unfold probeBody
  split
  · rfl
  · cases net 0 with
    | dialErr msg => rfl
    | ok peerCertificates => cases peerCertificates <;> rfl

/-- Helper: both select arms of GetDaysRemaining label the Result with the
endpoint argument. -/
theorem getDaysRemaining_Endpoint (ctxDoneFirst : Bool)
    (net : Nat → DialOutcome) (now : Int) (endpoint : String) :
    (GetDaysRemaining ctxDoneFirst net now endpoint).Endpoint = endpoint := by
  unfold GetDaysRemaining
  split
  · rfl
  · exact probeBody_Endpoint net now endpoint

/-- Claim C1 counterexample: with a network that refuses the first two
connection attempts and would succeed on the third, GetDaysRemaining
returns a ConnectionFailed error after performing exactly one dial — the
code contains no retry loop, so the claimed fail-fail-succeed scenario
does not yield a successful result. -/
theorem C1_no_retry_counterexample :
    (GetDaysRemaining false
        (fun n => if n < 2 then DialOutcome.dialErr "connection refused"
                  else DialOutcome.ok [⟨4320000000000000⟩])
        0 "example.com:443").Err
      = some (GoError.connectionFailed "example.com:443" "connection refused") ∧
    (probeBody
        (fun n => if n < 2 then DialOutcome.dialErr "connection refused"
                  else DialOutcome.ok [⟨4320000000000000⟩])
        0 "example.com:443").2 = 1 := by
  exact ⟨rfl, rfl⟩

/-- Claim C1 (amended): on connection or handshake failure GetDaysRemaining
performs exactly one connection attempt — no retries, no backoff wait —
and immediately returns a ConnectionFailed error wrapping the underlying
dial error. -/
theorem C1_single_attempt (net : Nat → DialOutcome) (now : Int)
    (endpoint msg : String)
    (hfmt : splitParts endpoint = 2)
    (hfail : net 0 = DialOutcome.dialErr msg) :
    GetDaysRemaining false net now endpoint
      = ⟨endpoint, 0, some (GoError.connectionFailed endpoint msg)⟩ ∧
    (probeBody net now endpoint).2 = 1 := by
  unfold GetDaysRemaining probeBody
  simp [hfmt, hfail]

/-- Claim C1 witness: concrete instance of the single-attempt theorem. -/
theorem C1_single_attempt_witness :
    GetDaysRemaining false (fun _ => DialOutcome.dialErr "connection refused")
        0 "example.com:443"
      = ⟨"example.com:443", 0,
         some (GoError.connectionFailed "example.com:443" "connection refused")⟩ ∧
    (probeBody (fun _ => DialOutcome.dialErr "connection refused")
        0 "example.com:443").2 = 1 :=
  C1_single_attempt (fun _ => DialOutcome.dialErr "connection refused")
    0 "example.com:443" "connection refused" (by decide) rfl

/-- Claim C3: when the externally supplied deadline fires before the probe
resolves (the ctx.Done arm of the select wins), GetDaysRemaining abandons
the wait on the connection attempt and returns the timeout error for that
endpoint, whatever the network would have done. -/
theorem C3_timeout_on_deadline (net : Nat → DialOutcome) (now : Int)
    (endpoint : String) :
    GetDaysRemaining true net now endpoint
      = ⟨endpoint, 0, some (GoError.timeout endpoint)⟩ := rfl

/-- Claim C5 counterexample: the endpoint string with a non-numeric port
does not parse into a host and a numeric port, yet the code performs one
network dial and reports a connection error rather than an invalid-format
error — the format check only counts colon-separated parts. -/
theorem C5_nonnumeric_port_counterexample :
    hostNumericPort "example.com:abc" = false ∧
    (probeBody (fun _ => DialOutcome.dialErr "no such host")
        0 "example.com:abc").2 = 1 ∧
    (GetDaysRemaining false (fun _ => DialOutcome.dialErr "no such host")
        0 "example.com:abc").Err ≠ some GoError.invalidFormat := by
  refine ⟨rfl, rfl, ?_⟩
  decide

/-- Claim C5 (amended): GetDaysRemaining fails fast with an invalid-format
error and performs zero network dials exactly when splitting the endpoint
on ":" does not give two parts; in particular a string without any colon
gives one part and fails immediately with no network attempt. Whether the
port is numeric is not checked. -/
theorem C5_format_fail_fast (net : Nat → DialOutcome) (now : Int)
    (endpoint : String) (h : splitParts endpoint ≠ 2) :
    GetDaysRemaining false net now endpoint
      = ⟨endpoint, 0, some GoError.invalidFormat⟩ ∧
    (probeBody net now endpoint).2 = 0 := by
  unfold GetDaysRemaining probeBody
  simp [h]

/-- Claim C5 witness: an endpoint without a colon fails immediately with
zero dials. -/
theorem C5_format_fail_fast_witness :
    GetDaysRemaining false (fun _ => DialOutcome.dialErr "unreachable")
        0 "example.com"
      = ⟨"example.com", 0, some GoError.invalidFormat⟩ ∧
    (probeBody (fun _ => DialOutcome.dialErr "unreachable")
        0 "example.com").2 = 0 :=
  C5_format_fail_fast (fun _ => DialOutcome.dialErr "unreachable")
    0 "example.com" (by decide)

/-- Claim C6: a Result carrying an error carries no meaningful
daysRemaining — on every error exit of GetDaysRemaining the DaysRemaining
field is the zero value 0, and the success exit carries Err = none, so
exactly one of the two fields is ever populated. -/
theorem C6_error_excludes_days (ctxDoneFirst : Bool)
    (net : Nat → DialOutcome) (now : Int) (endpoint : String) (e : GoError)
    (herr : (GetDaysRemaining ctxDoneFirst net now endpoint).Err = some e) :
    (GetDaysRemaining ctxDoneFirst net now endpoint).DaysRemaining = 0 := by
  cases ctxDoneFirst with
  | true => rfl
  | false =>
    unfold GetDaysRemaining probeBody at herr ⊢
    simp only [Bool.false_eq_true, if_false] at herr ⊢
    by_cases hfmt : splitParts endpoint ≠ 2
    · simp [hfmt]
    · simp only [hfmt, if_false] at herr ⊢
      cases hnet : net 0 with
      | dialErr msg => simp [hnet]
      | ok peerCertificates =>
        cases peerCertificates with
        | nil => simp [hnet]
        | cons cert rest => simp [hnet] at herr

/-- Claim C6 witness: the timeout exit carries an error and a zero
DaysRemaining. -/
theorem C6_error_excludes_days_witness :
    (GetDaysRemaining true (fun _ => DialOutcome.ok [])
        0 "example.com:443").DaysRemaining = 0 :=
  C6_error_excludes_days true (fun _ => DialOutcome.ok [])
    0 "example.com:443" (GoError.timeout "example.com:443") rfl

/-- Claim C7: on a successful handshake the probe reads the first
certificate of the presented chain (the leaf) to compute the expiry, and
an empty presented chain yields the no-certificate error. -/
theorem C7_leaf_certificate (net : Nat → DialOutcome) (now : Int)
    (endpoint : String) (hfmt : splitParts endpoint = 2) :
    (net 0 = DialOutcome.ok [] →
      GetDaysRemaining false net now endpoint
        = ⟨endpoint, 0, some (GoError.noCertificate endpoint)⟩) ∧
    (∀ leaf rest, net 0 = DialOutcome.ok (leaf :: rest) →
      GetDaysRemaining false net now endpoint
        = ⟨endpoint, daysRemaining now leaf.NotAfter, none⟩) := by
  constructor
  · intro hnet
    unfold GetDaysRemaining probeBody
    simp [hfmt, hnet]
  · intro leaf rest hnet
    unfold GetDaysRemaining probeBody
    simp [hfmt, hnet]

/-- Claim C7 witness: a chain whose leaf expires in 50 days gives 50, and
an empty chain gives the no-certificate error. -/
theorem C7_leaf_certificate_witness :
    GetDaysRemaining false (fun _ => DialOutcome.ok [])
        0 "example.com:443"
      = ⟨"example.com:443", 0,
         some (GoError.noCertificate "example.com:443")⟩ ∧
    GetDaysRemaining false
        (fun _ => DialOutcome.ok [⟨4320000000000000⟩, ⟨1⟩])
        0 "example.com:443"
      = ⟨"example.com:443", 50, none⟩ := by
  constructor
  · exact (C7_leaf_certificate (fun _ => DialOutcome.ok [])
      0 "example.com:443" (by decide)).1 rfl
  · have h := (C7_leaf_certificate
      (fun _ => DialOutcome.ok [⟨4320000000000000⟩, ⟨1⟩])
      0 "example.com:443" (by decide)).2 ⟨4320000000000000⟩ [⟨1⟩] rfl
    rw [h]
    decide

/-- Claim C10: every exit path of GetDaysRemaining — invalid format,
connection failure, empty chain, success, or timeout — returns a Result
whose Endpoint field is exactly the endpoint argument. -/
theorem C10_endpoint_preserved (ctxDoneFirst : Bool)
    (net : Nat → DialOutcome) (now : Int) (endpoint : String) :
    (GetDaysRemaining ctxDoneFirst net now endpoint).Endpoint = endpoint :=
  getDaysRemaining_Endpoint ctxDoneFirst net now endpoint

/-- Claim C2: the fan-out produces exactly one result per input endpoint —
any order in which the results channel delivers the per-goroutine results
has the same length as the endpoint list, and its Endpoint fields are a
permutation of the input endpoints (1:1, no duplication or loss),
regardless of how each individual probe resolves (failure, timeout or
success). -/
theorem C2_one_result_per_endpoint (ctxDoneFirst : String → Bool)
    (net : String → Nat → DialOutcome) (now : String → Int)
    (endpoints : List String) (hne : endpoints ≠ [])
    (collected : List Result)
    (hperm : collected.Perm (schedulerResults
      (fun e => GetDaysRemaining (ctxDoneFirst e) (net e) (now e) e)
      endpoints)) :
    collected.length = endpoints.length ∧
    (collected.map Result.Endpoint).Perm endpoints := by
  have hmap : (schedulerResults
      (fun e => GetDaysRemaining (ctxDoneFirst e) (net e) (now e) e)
      endpoints).map Result.Endpoint = endpoints := by
    unfold schedulerResults
    rw [List.map_map]
    have hid : (Result.Endpoint ∘
        fun e => GetDaysRemaining (ctxDoneFirst e) (net e) (now e) e) = id := by
      funext e
      exact getDaysRemaining_Endpoint (ctxDoneFirst e) (net e) (now e) e
    rw [hid, List.map_id]
  constructor
  · rw [hperm.length_eq]
    simp [schedulerResults]
  · have hp := hperm.map Result.Endpoint
    rwa [hmap] at hp

/-- Claim C2 witness: two endpoints that both fail to connect still give
two results whose endpoints are a permutation of the inputs. -/
theorem C2_one_result_per_endpoint_witness :
    (schedulerResults
      (fun e => GetDaysRemaining ((fun _ => false) e)
        ((fun _ _ => DialOutcome.dialErr "connection refused") e)
        ((fun _ => 0) e) e)
      ["a.example:443", "b.example:8443"]).length
      = (["a.example:443", "b.example:8443"] : List String).length ∧
    ((schedulerResults
      (fun e => GetDaysRemaining ((fun _ => false) e)
        ((fun _ _ => DialOutcome.dialErr "connection refused") e)
        ((fun _ => 0) e) e)
      ["a.example:443", "b.example:8443"]).map Result.Endpoint).Perm
      ["a.example:443", "b.example:8443"] :=
  C2_one_result_per_endpoint (fun _ => false)
    (fun _ _ => DialOutcome.dialErr "connection refused") (fun _ => 0)
    ["a.example:443", "b.example:8443"] (by decide) _ (List.Perm.refl _)

/-- Claim C4 counterexample: a certificate 12 hours past expiry — the code
computes the truncation toward zero, giving 0, while the floor formula of
the claim gives -1; so daysRemaining differs from floor(hours/24) and a
notAfter in the past does not always yield a negative value. -/
theorem C4_floor_counterexample :
    daysRemaining 0 (-43200000000000) = 0 ∧
    daysRemainingFloorSpec 0 (-43200000000000) = -1 ∧
    ¬ daysRemaining 0 (-43200000000000) < 0 := by decide

/-- Claim C4 (amended): daysRemaining is the truncation toward zero of the
remaining duration divided by one day. It agrees with the floor formula
whenever notAfter is not in the past; a notAfter exactly 50 days in the
future yields 50; a certificate expiring within the next 24 hours yields
0; and a notAfter at least 24 hours in the past yields a negative value
(within the past 24 hours the value is 0, not negative). -/
theorem C4_truncation_toward_zero (now notAfter : Int) :
    (0 ≤ notAfter - now →
      daysRemaining now notAfter = daysRemainingFloorSpec now notAfter) ∧
    (notAfter - now = 50 * nsPerDay → daysRemaining now notAfter = 50) ∧
    (0 ≤ notAfter - now → notAfter - now < nsPerDay →
      daysRemaining now notAfter = 0) ∧
    (notAfter - now ≤ -nsPerDay → daysRemaining now notAfter < 0) := by
  refine ⟨?_, ?_, ?_, ?_⟩
  · intro h
    unfold daysRemaining daysRemainingFloorSpec
    rw [Int.tdiv_eq_ediv h (by decide), Int.fdiv_eq_ediv _ (by decide)]
  · intro h
    unfold daysRemaining
    rw [h, Int.mul_tdiv_cancel 50 (by decide)]
  · intro h1 h2
    unfold daysRemaining
    rw [Int.tdiv_eq_ediv h1 (by decide)]
    exact Int.ediv_eq_zero_of_lt h1 h2
  · intro h
    have hns : nsPerDay = 86400000000000 := rfl
    have ha : 0 ≤ -(notAfter - now) := by omega
    have h2 : 1 ≤ Int.tdiv (-(notAfter - now)) nsPerDay := by
      rw [Int.tdiv_eq_ediv ha (by decide)]
      rw [Int.le_ediv_iff_mul_le (by decide)]
      omega
    have h3 : Int.tdiv (notAfter - now) nsPerDay
        = -(Int.tdiv (-(notAfter - now)) nsPerDay) := by
      rw [← Int.neg_tdiv, neg_neg]
    unfold daysRemaining
    omega

/-- Claim C4 witness: concrete instances — 50 days ahead gives 50, 12
hours ahead gives 0, exactly one day past gives a negative value, and one
day ahead agrees with the floor formula. -/
theorem C4_truncation_toward_zero_witness :
    daysRemaining 0 (50 * nsPerDay) = 50 ∧
    daysRemaining 0 43200000000000 = 0 ∧
    daysRemaining 0 (-86400000000000) < 0 ∧
    daysRemaining 0 86400000000000 = daysRemainingFloorSpec 0 86400000000000 :=
  ⟨(C4_truncation_toward_zero 0 (50 * nsPerDay)).2.1 (by decide),
   (C4_truncation_toward_zero 0 43200000000000).2.2.1 (by decide) (by decide),
   (C4_truncation_toward_zero 0 (-86400000000000)).2.2.2 (by decide),
   (C4_truncation_toward_zero 0 86400000000000).1 (by decide)⟩

/-- Claim C8: an endpoint string without a colon gets ":443" appended
before probing, and one that already contains a colon is passed through
unchanged. -/
theorem C8_default_port (endpoint : String) :
    (endpoint.toList.contains ':' = false →
      ensureDefaultPort endpoint = endpoint ++ ":443") ∧
    (endpoint.toList.contains ':' = true →
      ensureDefaultPort endpoint = endpoint) := by
  constructor <;> intro h <;> unfold ensureDefaultPort <;> rw [h] <;> simp

/-- Claim C8 witness: a bare host gains ":443" and a host with an explicit
port is unchanged. -/
theorem C8_default_port_witness :
    ensureDefaultPort "example.com" = "example.com" ++ ":443" ∧
    ensureDefaultPort "example.com:8443" = "example.com:8443" :=
  ⟨(C8_default_port "example.com").1 (by decide),
   (C8_default_port "example.com:8443").2 (by decide)⟩

/-- Claim C9: publishMetricData distinguishes total delivery failure (the
post request itself failing) from partial delivery failure (a response
carrying a positive FailedMetricsCount); the two error values are
distinct, and the function returns no error exactly when the request
succeeds with no positive failed-metrics count. -/
theorem C9_publish_failure_modes (msg : String)
    (response : PostMetricDataResponse) (n : Int) :
    publishMetricData (Except.error msg) = some (GoError.postFailed msg) ∧
    (response.FailedMetricsCount = some n → 0 < n →
      publishMetricData (Except.ok response) = some (GoError.postRejected n)) ∧
    (∀ m k, GoError.postFailed m ≠ GoError.postRejected k) ∧
    (response.FailedMetricsCount = some n → 0 ≤ n →
      (publishMetricData (Except.ok response) = none ↔ n = 0)) ∧
    (response.FailedMetricsCount = none →
      publishMetricData (Except.ok response) = none) := by
  refine ⟨rfl, ?_, ?_, ?_, ?_⟩
  · intro hc hn
    simp [publishMetricData, hc, hn]
  · intro m k h
    exact GoError.noConfusion h
  · intro hc hn0
    simp only [publishMetricData, hc]
    by_cases hpos : n > 0
    · simp [hpos]
      omega
    · simp [hpos]
      omega
  · intro hne
    simp [publishMetricData, hne]

/-- Claim C9 witness: concrete instances of each failure mode and the
success condition. -/
theorem C9_publish_failure_modes_witness :
    publishMetricData (Except.error "request failed")
      = some (GoError.postFailed "request failed") ∧
    publishMetricData (Except.ok ⟨some 2⟩)
      = some (GoError.postRejected 2) ∧
    GoError.postFailed "request failed" ≠ GoError.postRejected 2 ∧
    (publishMetricData (Except.ok ⟨some 0⟩) = none ↔ (0 : Int) = 0) ∧
    publishMetricData (Except.ok ⟨none⟩) = none :=
  ⟨(C9_publish_failure_modes "request failed" ⟨some 2⟩ 2).1,
   (C9_publish_failure_modes "request failed" ⟨some 2⟩ 2).2.1 rfl (by decide),
   (C9_publish_failure_modes "request failed" ⟨some 2⟩ 2).2.2.1 "request failed" 2,
   (C9_publish_failure_modes "request failed" ⟨some 0⟩ 0).2.2.2.1 rfl (by decide),
   (C9_publish_failure_modes "request failed" ⟨none⟩ 0).2.2.2.2 rfl⟩
